import Mathlib

/-!
Shallow embedding of the spectral engine of `src/components/SpectralEngine.py`.

Modelling conventions, stated once here:

* Python floats are embedded as exact rationals (`ℚ`); the decimal literals of
  the source (`0.1`, `0.0001`, ...) appear as the corresponding rationals.
* `math.exp` and `math.log10` are transcendental; every operation that uses them
  takes the function as an explicit parameter (`pexp`, `log10`), so the
  definitions stay executable and theorems quantify over the function.
* The random draws of `numpy.random` (`poisson`, `normal`) are oracle inputs: a
  `Draws` record holds the realized values of the three noise draws of one
  measurement, and scans take a stream `noise : ℕ → Draws` giving the draws of
  the i-th measurement.
* Wall-clock time (`time.time`, `time.sleep`, `datetime.now`) is abstracted:
  sleeps are ignored, timestamps are dropped from the embedded records, and the
  elapsed time seen by the k-th loop-condition check of `kinetic_scan` is
  idealized to `k * interval` (one `interval` sleep per iteration).  A `fuel`
  bound gives the number of loop iterations the wall clock admits.
* External cooperative cancellation (another caller clearing `is_scanning`
  between steps, the only interference admitted by the design) is modelled by a
  schedule `stop : ℕ → Bool`: `stop i = true` means the flag is cleared during
  step i, observed at the next loop check.
* Python dicts are association lists with unique keys in insertion order;
  `dictGet`/`dictInsert`/`dictOfList` model lookup, insert and the
  dict-comprehension construction.  Dict keys can be numbers or strings
  (`PyKey`), which matters because `json.dump` converts the float keys of the
  spectra to strings (`{450.0: v}` is serialized with key "450.0"), so
  `load_data` yields string-keyed spectra.
* Python exceptions are `Except`; for state-mutating operations the error
  carries the engine state as mutated up to the raise, since Python leaves such
  mutations in place.
* Console `print` calls are ignored; interpolated text in error messages is
  abbreviated to a fixed prefix of the source message.
-/

set_option maxRecDepth 4000

set_option maxHeartbeats 1000000

namespace SpectOS

/-- Dict keys as they occur in the engine: numeric wavelengths, or the strings
that `json.load` turns them into. -/
inductive PyKey where
  | num : ℚ → PyKey
  | str : String → PyKey
deriving DecidableEq

/-- A Python dict from wavelength keys to intensities, as an association list
with unique keys in insertion order. -/
abbrev Spectrum := List (PyKey × ℚ)

/-- Python `d[k]` / `k in d` lookup. -/
def dictGet (sp : Spectrum) (k : PyKey) : Option ℚ :=
  match sp with
  | [] => none
  | (k', v) :: rest => if k' = k then some v else dictGet rest k

/-- Python `d[k] = v`: update in place if the key exists, else append. -/
def dictInsert (sp : Spectrum) (k : PyKey) (v : ℚ) : Spectrum :=
  match sp with
  | [] => [(k, v)]
  | (k', v') :: rest =>
      if k' = k then (k', v) :: rest else (k', v') :: dictInsert rest k v

/-- Python dict comprehension `{k(x): v(x) for x in l}`: left-to-right
insertion, later duplicates overwrite earlier ones. -/
def dictOfList (l : List (PyKey × ℚ)) : Spectrum :=
  l.foldl (fun d kv => dictInsert d kv.1 kv.2) []

/-- The `calibration_data` record of `_initialize_default_calibration`
(`wavelength_coeffs` a/b/c, `intensity_coeffs` m/b, the dark-current constant,
the last-calibration timestamp string, the validity flag). -/
structure CalibrationData where
  wavelength_coeffs : ℚ × ℚ × ℚ
  intensity_coeffs : ℚ × ℚ
  dark_current : ℚ
  last_calibration : String
  calibration_valid : Bool
deriving DecidableEq

/-- The dict returned by `measure_single` (timestamp dropped, see header). -/
structure Measurement where
  wavelength : ℚ
  calibrated_wavelength : ℚ
  intensity : ℚ
  sample_present : Bool
deriving DecidableEq

/-- A `scan_history` entry built by `scan_full_range` (timestamp and the
constant `'type'` tag dropped). -/
structure ScanRecord where
  start_wavelength : ℚ
  end_wavelength : ℚ
  step_size : ℚ
  data : List Measurement
  sample_present : Bool
deriving DecidableEq

/-- One entry of `kinetic_data` (`absorbance` is the `None` placeholder). -/
structure KineticSample where
  time : ℚ
  wavelength : ℚ
  intensity : ℚ
  absorbance : Option ℚ
deriving DecidableEq

/-- An absorbance value: finite, or the `float('inf')` sentinel. -/
inductive AbsVal where
  | finite : ℚ → AbsVal
  | posInf : AbsVal
deriving DecidableEq

/-- One entry of the list returned by `measure_absorbance`. -/
structure AbsorbanceResult where
  wavelength : PyKey
  absorbance : AbsVal
  transmittance : ℚ
  reference_intensity : ℚ
  sample_intensity : ℚ
deriving DecidableEq

/-- The mutable engine state of `SpectralEngine.__init__`.  Pure-timing fields
(`scan_speed`, `integration_time`), the noise-rate constants (they only
parametrize the abstracted random draws), `scan_mode` and the `ACCURACY`
constant are omitted as unobservable in this model. -/
structure Engine where
  current_wavelength : ℚ
  target_wavelength : ℚ
  is_scanning : Bool
  is_calibrated : Bool
  is_lamp_on : Bool
  sample_present : Bool
  reference_spectrum : Spectrum
  sample_spectrum : Spectrum
  background_spectrum : Spectrum
  calibration_data : CalibrationData
  scan_history : List ScanRecord
  kinetic_data : List KineticSample
  scan_range : ℚ × ℚ
deriving DecidableEq

def MIN_WAVELENGTH : ℚ := 190

def MAX_WAVELENGTH : ℚ := 1100

def WAVELENGTH_STEP : ℚ := 1/10

/-- `_initialize_default_calibration`: coefficients `[0.000001, 1.0001, -0.05]`
and `[1.0, 0.0]`, dark current `0.001`; the `datetime.now().isoformat()`
timestamp is abstracted to a fixed string. -/
def default_calibration : CalibrationData :=
  { wavelength_coeffs := (1/1000000, 10001/10000, -(1/20))
    intensity_coeffs := (1, 0)
    dark_current := 1/1000
    last_calibration := "startup"
    calibration_valid := false }

/-- The state built by `SpectralEngine.__init__`. -/
def initEngine : Engine :=
  { current_wavelength := 450
    target_wavelength := 450
    is_scanning := false
    is_calibrated := false
    is_lamp_on := false
    sample_present := false
    reference_spectrum := []
    sample_spectrum := []
    background_spectrum := []
    calibration_data := default_calibration
    scan_history := []
    kinetic_data := []
    scan_range := (MIN_WAVELENGTH, MAX_WAVELENGTH) }

/-- Realized values of the three random noise draws of one measurement
(`np.random.poisson(dark_current*1000)/1000`, the readout `np.random.normal`,
the photometric `np.random.normal`). -/
structure Draws where
  dark : ℚ
  readout : ℚ
  photometric : ℚ
deriving DecidableEq

/-- `_apply_wavelength_calibration`: `a*w**2 + b*w + c` (squares are written
`x * x` throughout: they are the same rational, and unlike `x ^ 2` they reduce
inside closed witness runs). -/
def apply_wavelength_calibration (cal : CalibrationData) (w : ℚ) : ℚ :=
  cal.wavelength_coeffs.1 * (w * w) + cal.wavelength_coeffs.2.1 * w
    + cal.wavelength_coeffs.2.2

/-- `_apply_intensity_calibration`: `m*intensity + b`. -/
def apply_intensity_calibration (cal : CalibrationData) (intensity : ℚ) : ℚ :=
  cal.intensity_coeffs.1 * intensity + cal.intensity_coeffs.2

/-- `_simulate_spectral_response`, with `math.exp` as the parameter `pexp`. -/
def simulate_spectral_response (pexp : ℚ → ℚ) (sample_present : Bool)
    (wavelength : ℚ) : ℚ :=
  let response :=
    if wavelength < 350 then
      1000 * pexp (-(2/1000) * ((wavelength - 250) * (wavelength - 250)))
    else
      800 * pexp (-(1/10000) * ((wavelength - 550) * (wavelength - 550)))
        + 200 * pexp (-(2/10000) * ((wavelength - 750) * (wavelength - 750)))
        + 100 * pexp (-(3/10000) * ((wavelength - 900) * (wavelength - 900)))
  let response :=
    if sample_present = true then
      response * ((8/10) * (1 - (3/10) * pexp (-(1/1000) * ((wavelength - 450) * (wavelength - 450))))
                         * (1 - (5/10) * pexp (-(5/10000) * ((wavelength - 650) * (wavelength - 650)))))
    else response
  max 0 response

/-- `_add_measurement_noise`: the photometric term is drawn only when the
pre-noise intensity is positive, and the sum is floored at 0. -/
def add_measurement_noise (d : Draws) (intensity : ℚ) : ℚ :=
  let photometric_noise := if 0 < intensity then d.photometric else 0
  max 0 (intensity + d.dark + d.readout + photometric_noise)

/-- The measurement value built by the body of `measure_single` (after the
lamp guard): calibrate the wavelength, synthesize the response, calibrate the
intensity, add noise, and clamp the reported intensity at 0. -/
def measured (pexp : ℚ → ℚ) (d : Draws) (e : Engine) : Measurement :=
  let calibrated_wl := apply_wavelength_calibration e.calibration_data e.current_wavelength
  let intensity := simulate_spectral_response pexp e.sample_present calibrated_wl
  let calibrated_intensity := apply_intensity_calibration e.calibration_data intensity
  let noisy_intensity := add_measurement_noise d calibrated_intensity
  { wavelength := e.current_wavelength
    calibrated_wavelength := calibrated_wl
    intensity := max 0 noisy_intensity
    sample_present := e.sample_present }

/-- `measure_single`: raises when the lamp is off, otherwise returns the
measurement; it never mutates the engine. -/
def measure_single (pexp : ℚ → ℚ) (d : Draws) (e : Engine) :
    Except String Measurement :=
  if e.is_lamp_on = false then Except.error "Lamp is off. Cannot measure."
  else Except.ok (measured pexp d e)

/-- Message of the `ValueError` of `set_wavelength` (interpolated numbers
abbreviated away, braces of the f-string not reproduced). -/
def range_error_msg : String := "Wavelength out of range. Valid range: 190.0-1100.0nm"

/-- `set_wavelength`: range-check, set the target, simulate the movement delay
(ignored), set the current wavelength, return it.  The error carries the
unmutated engine: the raise happens before any assignment. -/
def set_wavelength (w : ℚ) (e : Engine) : Except (String × Engine) (Engine × ℚ) :=
  if ¬ (MIN_WAVELENGTH ≤ w ∧ w ≤ MAX_WAVELENGTH) then
    Except.error (range_error_msg, e)
  else
    let e1 := { e with target_wavelength := w }
    let e2 := { e1 with current_wavelength := w }
    Except.ok (e2, e2.current_wavelength)

/-- `goto_wavelength` just delegates to `set_wavelength`. -/
def goto_wavelength (w : ℚ) (e : Engine) : Except (String × Engine) (Engine × ℚ) :=
  set_wavelength w e

/-- The external cooperative cancellation: if the schedule says so, another
caller clears `is_scanning` during step `i` (observed at the next loop check);
otherwise the state is untouched. -/
def clear_stop (stop : ℕ → Bool) (i : ℕ) (e : Engine) : Engine :=
  if stop i then { e with is_scanning := false } else e

/-- The scan loop of `scan_full_range` (`for i in range(num_points)`), with the
remaining iteration count as first argument and the loop index as second.  At
each step the external world may clear `is_scanning` (schedule `stop`), then
the loop breaks if the flag is cleared, else moves `current_wavelength` to
`start + i * step` and measures; a raise from `measure_single` propagates with
the engine as mutated so far. -/
def scan_loop (pexp : ℚ → ℚ) (noise : ℕ → Draws) (stop : ℕ → Bool)
    (start_wl : ℚ) :
    ℕ → ℕ → Engine → Except (String × Engine) (Engine × List Measurement)
  | 0, _, e => Except.ok (e, [])
  | n+1, i, e =>
    let e1 := clear_stop stop i e
    if e1.is_scanning = false then Except.ok (e1, [])
    else
      let e2 := { e1 with current_wavelength := start_wl + (i : ℚ) * WAVELENGTH_STEP }
      match measure_single pexp (noise i) e2 with
      | Except.error msg => Except.error (msg, e2)
      | Except.ok m =>
        match scan_loop pexp noise stop start_wl n (i+1) e2 with
        | Except.error p => Except.error p
        | Except.ok (e3, rest) => Except.ok (e3, m :: rest)

/-- `scan_full_range`: lamp guard, bound defaults from `scan_range`, range
checks, `num_points = int((end-start)/step) + 1` (the quotient is positive
here, so `int` truncation is the floor), the measurement loop, then
unconditionally record the scan in `scan_history` and — only if
`sample_present` — replace `sample_spectrum` by this scan's
wavelength-to-intensity dict. -/
def scan_full_range (pexp : ℚ → ℚ) (noise : ℕ → Draws) (stop : ℕ → Bool)
    (start_arg end_arg : Option ℚ) (e : Engine) :
    Except (String × Engine) (Engine × ScanRecord) :=
  if e.is_lamp_on = false then Except.error ("Lamp is off. Cannot scan.", e)
  else
    let start_wl := start_arg.getD e.scan_range.1
    let end_wl := end_arg.getD e.scan_range.2
    if ¬ (MIN_WAVELENGTH ≤ start_wl ∧ start_wl ≤ MAX_WAVELENGTH) then
      Except.error ("Start wavelength out of range", e)
    else if ¬ (MIN_WAVELENGTH ≤ end_wl ∧ end_wl ≤ MAX_WAVELENGTH) then
      Except.error ("End wavelength out of range", e)
    else if end_wl ≤ start_wl then
      Except.error ("End wavelength must be greater than start wavelength", e)
    else
      let e1 := { e with is_scanning := true }
      let num_points := (((end_wl - start_wl) / WAVELENGTH_STEP).floor).toNat + 1
      match scan_loop pexp noise stop start_wl num_points 0 e1 with
      | Except.error p => Except.error p
      | Except.ok (e2, scan_data) =>
        let record : ScanRecord :=
          { start_wavelength := start_wl
            end_wavelength := end_wl
            step_size := WAVELENGTH_STEP
            data := scan_data
            sample_present := e2.sample_present }
        let e3 := { e2 with is_scanning := false }
        let e4 := { e3 with scan_history := e3.scan_history ++ [record] }
        let newsample :=
          dictOfList (scan_data.map (fun m => (PyKey.num m.wavelength, m.intensity)))
        let e5 :=
          if e4.sample_present = true then { e4 with sample_spectrum := newsample }
          else e4
        Except.ok (e5, record)

/-- The loop of `measure_absorbance` over `sample_spectrum.items()`: keys
missing from the reference, and keys whose reference intensity is not positive,
contribute nothing; otherwise transmittance `sample/ref`, absorbance
`-log10(t)` when `t > 0` else the infinity sentinel, transmittance reported as
a percentage. -/
def absorbance_loop (log10 : ℚ → ℚ) (ref : Spectrum) :
    List (PyKey × ℚ) → List AbsorbanceResult
  | [] => []
  | (wl, sample_intensity) :: rest =>
    match dictGet ref wl with
    | some ref_intensity =>
      if 0 < ref_intensity then
        let transmittance := sample_intensity / ref_intensity
        let absorbance :=
          if 0 < transmittance then AbsVal.finite (-(log10 transmittance))
          else AbsVal.posInf
        { wavelength := wl
          absorbance := absorbance
          transmittance := transmittance * 100
          reference_intensity := ref_intensity
          sample_intensity := sample_intensity }
          :: absorbance_loop log10 ref rest
      else absorbance_loop log10 ref rest
    | none => absorbance_loop log10 ref rest

/-- `measure_absorbance`: not-ready errors on an empty reference or sample
spectrum, else the loop above; `math.log10` is the parameter `log10`. -/
def measure_absorbance (log10 : ℚ → ℚ) (e : Engine) :
    Except String (List AbsorbanceResult) :=
  if e.reference_spectrum.isEmpty then
    Except.error "No reference spectrum available. Run calibration first."
  else if e.sample_spectrum.isEmpty then
    Except.error "No sample spectrum available. Scan a sample first."
  else
    Except.ok (absorbance_loop log10 e.reference_spectrum e.sample_spectrum)

/-- `calibrate_reference`: store the old `sample_present`, force it false,
then (inside `try`) turn the lamp OFF and call `measure_single` for the dark
background, turn the lamp on, scan `current_wavelength ± 5`, rebuild
`reference_spectrum` from the scan data and set `is_calibrated`; the `finally`
restores `sample_present` on both the normal and the raising path. -/
def calibrate_reference (pexp : ℚ → ℚ) (noise : ℕ → Draws) (stop : ℕ → Bool)
    (d : Draws) (e : Engine) : Except (String × Engine) (Engine × Bool) :=
  let original_sample_state := e.sample_present
  let e1 := { e with sample_present := false }
  let body : Except (String × Engine) (Engine × Bool) :=
    let e2 := { e1 with is_lamp_on := false }
    match measure_single pexp d e2 with
    | Except.error msg => Except.error (msg, e2)
    | Except.ok dark_measurement =>
      let bg : Spectrum := [(PyKey.num e2.current_wavelength, dark_measurement.intensity)]
      let e3 := { e2 with background_spectrum := bg }
      let e4 := { e3 with is_lamp_on := true }
      match scan_full_range pexp noise stop
          (some (e4.current_wavelength - 5)) (some (e4.current_wavelength + 5)) e4 with
      | Except.error p => Except.error p
      | Except.ok (e5, scan_result) =>
        let refspec :=
          dictOfList (scan_result.data.map (fun m => (PyKey.num m.wavelength, m.intensity)))
        let e6 := { e5 with reference_spectrum := refspec }
        let e7 := { e6 with is_calibrated := true }
        Except.ok (e7, true)
  match body with
  | Except.error (msg, ef) =>
      Except.error (msg, { ef with sample_present := original_sample_state })
  | Except.ok (ef, b) =>
      Except.ok ({ ef with sample_present := original_sample_state }, b)

/-- The `while` loop of `kinetic_scan`: the k-th condition check sees idealized
elapsed time `k * interval` and the scanning flag (true until the external
schedule `stop` clears it); each iteration measures once and records the fixed
time index `k * interval`.  `fuel` bounds the iterations the wall clock admits. -/
def kinetic_loop (pexp : ℚ → ℚ) (noise : ℕ → Draws) (stop : ℕ → Bool)
    (duration interval : ℚ) (e : Engine) :
    ℕ → ℕ → Bool → Except String (List KineticSample)
  | 0, _, _ => Except.ok []
  | fuel+1, k, scanning =>
    if ((k : ℚ) * interval < duration ∧ scanning = true) then
      match measure_single pexp (noise k) e with
      | Except.error msg => Except.error msg
      | Except.ok m =>
        match kinetic_loop pexp noise stop duration interval e fuel (k+1)
            (scanning && !(stop k)) with
        | Except.error msg => Except.error msg
        | Except.ok rest =>
          Except.ok ({ time := (k : ℚ) * interval
                       wavelength := m.wavelength
                       intensity := m.intensity
                       absorbance := none } :: rest)
    else Except.ok []

/-- `kinetic_scan`: sets `is_scanning` true, runs the loop; on completion
clears `is_scanning` and overwrites `kinetic_data`; on a raise the engine is
left with `is_scanning` still true and `kinetic_data` untouched (the function
has no cleanup handler). -/
def kinetic_scan (pexp : ℚ → ℚ) (noise : ℕ → Draws) (stop : ℕ → Bool)
    (duration interval : ℚ) (fuel : ℕ) (e : Engine) :
    Except (String × Engine) (Engine × List KineticSample) :=
  let e1 := { e with is_scanning := true }
  match kinetic_loop pexp noise stop duration interval e1 fuel 0 true with
  | Except.error msg => Except.error (msg, e1)
  | Except.ok samples =>
    let e2 := { e1 with is_scanning := false, kinetic_data := samples }
    Except.ok (e2, samples)

/-- `_test_detector`: turn the lamp off and measure, turn it on and measure,
turn it off again, pass iff the lit intensity is strictly greater; the bare
`except` turns any raise into a `False` verdict, keeping the state as mutated
at the raise. -/
def test_detector (pexp : ℚ → ℚ) (d1 d2 : Draws) (e : Engine) : Bool × Engine :=
  let e1 := { e with is_lamp_on := false }
  match measure_single pexp d1 e1 with
  | Except.error _ => (false, e1)
  | Except.ok dark_measurement =>
    let e2 := { e1 with is_lamp_on := true }
    match measure_single pexp d2 e2 with
    | Except.error _ => (false, e2)
    | Except.ok light_measurement =>
      let e3 := { e2 with is_lamp_on := false }
      (decide (dark_measurement.intensity < light_measurement.intensity), e3)

/-- Python `repr` of a float as used by `json.dump` for a non-string dict key:
whole numbers print with a trailing ".0".  (Only used to build the string key;
no theorem depends on the exact text.) -/
def pyFloatRepr (q : ℚ) : String :=
  if q.den = 1 then toString q.num ++ ".0" else toString q

/-- The key conversion `json.dump` applies to a non-string dict key. -/
def jsonKey : PyKey → PyKey
  | PyKey.num q => PyKey.str (pyFloatRepr q)
  | PyKey.str s => PyKey.str s

/-- A spectrum as it comes back from a `json.dump`/`json.load` round trip:
every numeric key has become its string representation, values unchanged. -/
def jsonSpectrum (sp : Spectrum) : Spectrum :=
  sp.map (fun kv => (jsonKey kv.1, kv.2))

/-- The document written by `save_data` (after `json.dump`): metadata block
(timestamp and the constant instrument string dropped), the three spectra as
serialized, the calibration record, the most recent scan record or `None`, and
the kinetic data. -/
structure SavedFile where
  meta_current_wavelength : ℚ
  meta_is_calibrated : Bool
  meta_sample_present : Bool
  reference_spectrum : Spectrum
  sample_spectrum : Spectrum
  background_spectrum : Spectrum
  calibration_data : CalibrationData
  recent_scan : Option ScanRecord
  kinetic_data : List KineticSample
deriving DecidableEq

/-- `save_data`: serializes the engine state; `json.dump` stringifies the
numeric wavelength keys of the three spectra (`jsonSpectrum`); everything else
round-trips unchanged. -/
def save_data (e : Engine) : SavedFile :=
  { meta_current_wavelength := e.current_wavelength
    meta_is_calibrated := e.is_calibrated
    meta_sample_present := e.sample_present
    reference_spectrum := jsonSpectrum e.reference_spectrum
    sample_spectrum := jsonSpectrum e.sample_spectrum
    background_spectrum := jsonSpectrum e.background_spectrum
    calibration_data := e.calibration_data
    recent_scan := e.scan_history.getLast?
    kinetic_data := e.kinetic_data }

/-- `load_data`: replaces the three spectra and `calibration_data` from the
file, appends the file's recent scan (if any) to `scan_history`, and replaces
`kinetic_data`. -/
def load_data (f : SavedFile) (e : Engine) : Engine :=
  let e1 := { e with
    reference_spectrum := f.reference_spectrum
    sample_spectrum := f.sample_spectrum
    background_spectrum := f.background_spectrum
    calibration_data := f.calibration_data }
  let e2 :=
    match f.recent_scan with
    | some r => { e1 with scan_history := e1.scan_history ++ [r] }
    | none => e1
  { e2 with kinetic_data := f.kinetic_data }

/-- The engine state after an operation, on either outcome (Python leaves the
mutations made before a raise in place). -/
def outcome_engine {α : Type} : Except (String × Engine) (Engine × α) → Engine
  | Except.ok (e, _) => e
  | Except.error (_, e) => e

/-- The data points of a successful scan (empty list on a raise). -/
def scan_data_of : Except (String × Engine) (Engine × ScanRecord) → List Measurement
  | Except.ok (_, r) => r.data
  | Except.error _ => []

/-- Whether an `Except` result is a success. -/
def exceptOk {ε α : Type} : Except ε α → Bool
  | Except.ok _ => true
  | Except.error _ => false

instance instDecEqExcept {ε α : Type} [DecidableEq ε] [DecidableEq α] :
    DecidableEq (Except ε α) := fun x y =>
  match x, y with
  | Except.ok a, Except.ok b =>
    if h : a = b then isTrue (by rw [h]) else isFalse (fun hc => h (Except.ok.inj hc))
  | Except.error a, Except.error b =>
    if h : a = b then isTrue (by rw [h]) else isFalse (fun hc => h (Except.error.inj hc))
  | Except.ok _, Except.error _ => isFalse (fun hc => Except.noConfusion hc)
  | Except.error _, Except.ok _ => isFalse (fun hc => Except.noConfusion hc)

/-! ## Concrete instruments used by witnesses and counterexamples -/

/-- A concrete stand-in for `math.exp` used in closed witness runs. -/
def exp0 : ℚ → ℚ := fun _ => 0

/-- A noise stream whose realized draws are all zero. -/
def noise0 : ℕ → Draws := fun _ => ⟨0, 0, 0⟩

/-- One zero draw record. -/
def noiseD : Draws := ⟨0, 0, 0⟩

/-- A schedule on which nobody aborts the scan. -/
def noStop : ℕ → Bool := fun _ => false

/-- A concrete stand-in for `math.log10`, correct at the one point the
absorbance example evaluates it. -/
def log10W : ℚ → ℚ := fun q => if q = 1/10 then -1 else 0

/-- The fresh engine with the lamp turned on. -/
def eOn : Engine := { initEngine with is_lamp_on := true }

/-- Default used only to state list-indexing facts without dependent bounds. -/
def default_measurement : Measurement := ⟨0, 0, 0, false⟩

/-- Default used only to extract list elements without dependent bounds. -/
def default_kinetic_sample : KineticSample := ⟨0, 0, 0, none⟩

/-- Default scan record used only as a `match` fallback in witness runs. -/
def default_scan_record : ScanRecord := ⟨0, 0, 0, [], false⟩

/-- The closed form of the `measure_absorbance` loop: the contribution of one
sample dict entry — `none` when the wavelength is missing from the reference
or its reference intensity is not positive. -/
def absorbance_entry (log10 : ℚ → ℚ) (ref : Spectrum) (p : PyKey × ℚ) :
    Option AbsorbanceResult :=
  match dictGet ref p.1 with
  | some ref_intensity =>
    if 0 < ref_intensity then
      some { wavelength := p.1
             absorbance :=
               if 0 < p.2 / ref_intensity then AbsVal.finite (-(log10 (p.2 / ref_intensity)))
               else AbsVal.posInf
             transmittance := p.2 / ref_intensity * 100
             reference_intensity := ref_intensity
             sample_intensity := p.2 }
    else none
  | none => none

/-- Engine used in the C2 counterexample: one numeric-keyed reference entry. -/
def eC2 : Engine := { initEngine with reference_spectrum := [(PyKey.num 450, 100)] }

/-- Engine of the documented absorbance example: reference `{500: 100}`,
sample `{500: 10, 600: 5}`. -/
def eC3 : Engine := { initEngine with
  reference_spectrum := [(PyKey.num 500, 100)]
  sample_spectrum := [(PyKey.num 500, 10), (PyKey.num 600, 5)] }

/-- Engine of the C3 counterexample: the wavelength 500 is present in both
spectra but its reference intensity is 0. -/
def eC3bad : Engine := { initEngine with
  reference_spectrum := [(PyKey.num 500, 0)]
  sample_spectrum := [(PyKey.num 500, 10)] }

/-- Engine for the C4 witness runs: lamp on, sample present, a stale
`sample_spectrum` that the scan must discard. -/
def eScanTrue : Engine := { eOn with
  sample_present := true
  sample_spectrum := [(PyKey.num 1, 1)] }

/-- Engine for the C4 no-sample witness run: lamp on, sample absent, a prior
`sample_spectrum` that must survive. -/
def eScanFalse : Engine := { eOn with sample_spectrum := [(PyKey.num 1, 1)] }

/-- Concrete 2-point scan run of the C4 witness, with a sample present. -/
def scanWT_pair : Engine × ScanRecord :=
  match scan_full_range exp0 noise0 noStop (some 190) (some (1901/10)) eScanTrue with
  | Except.ok p => p
  | Except.error _ => (initEngine, default_scan_record)

/-- Concrete 2-point scan run of the C4 witness, with no sample present. -/
def scanWF_pair : Engine × ScanRecord :=
  match scan_full_range exp0 noise0 noStop (some 190) (some (1901/10)) eScanFalse with
  | Except.ok p => p
  | Except.error _ => (initEngine, default_scan_record)

/-- Concrete measurement of the C9 witness. -/
def mW : Measurement :=
  match measure_single exp0 noiseD eOn with
  | Except.ok m => m
  | Except.error _ => default_measurement

/-- Concrete 2-point scan run of the C9 witness. -/
def scanW9_pair : Engine × ScanRecord :=
  match scan_full_range exp0 noise0 noStop (some 190) (some (1901/10)) eOn with
  | Except.ok p => p
  | Except.error _ => (initEngine, default_scan_record)

/-- First data point of the C9 witness scan. -/
def mW9 : Measurement := scanW9_pair.2.data.getD 0 default_measurement

/-- Concrete kinetic run of the C9 witness: lamp on, 2 seconds at 1-second
intervals, wall clock admitting 3 iterations. -/
def kinW_pair : Engine × List KineticSample :=
  match kinetic_scan exp0 noise0 noStop 2 1 3 eOn with
  | Except.ok p => p
  | Except.error _ => (initEngine, [])

/-- First sample of the C9 witness kinetic run. -/
def sW : KineticSample := kinW_pair.2.getD 0 default_kinetic_sample

/-! ## Basic lemmas about the measurement pipeline -/

lemma measure_single_of_lamp (pexp : ℚ → ℚ) (d : Draws) (e : Engine)
    (h : e.is_lamp_on = true) :
    measure_single pexp d e = Except.ok (measured pexp d e) := by
  simp [measure_single, h]

lemma measured_intensity_nonneg (pexp : ℚ → ℚ) (d : Draws) (e : Engine) :
    0 ≤ (measured pexp d e).intensity :=
  le_max_left 0 _

lemma measure_single_intensity_nonneg (pexp : ℚ → ℚ) (d : Draws) (e : Engine)
    (m : Measurement) (h : measure_single pexp d e = Except.ok m) :
    0 ≤ m.intensity := by
  by_cases hl : e.is_lamp_on = false
  · simp [measure_single, hl] at h
  · rw [measure_single_of_lamp pexp d e (by simpa using hl)] at h
    cases h
    exact measured_intensity_nonneg pexp d e

lemma clear_stop_fields (stop : ℕ → Bool) (i : ℕ) (e : Engine) :
    (clear_stop stop i e).sample_present = e.sample_present ∧
    (clear_stop stop i e).sample_spectrum = e.sample_spectrum ∧
    (clear_stop stop i e).is_lamp_on = e.is_lamp_on ∧
    (clear_stop stop i e).scan_history = e.scan_history := by
  unfold clear_stop
  split <;> exact ⟨rfl, rfl, rfl, rfl⟩

/-- The scan loop touches only `current_wavelength` and `is_scanning`: on any
successful run the sample/reference data and mode flags are those of the entry
state. -/
lemma scan_loop_ok_fields (pexp : ℚ → ℚ) (noise : ℕ → Draws) (stop : ℕ → Bool)
    (start_wl : ℚ) :
    ∀ (n i : ℕ) (e e' : Engine) (ms : List Measurement),
      scan_loop pexp noise stop start_wl n i e = Except.ok (e', ms) →
      e'.sample_present = e.sample_present ∧ e'.sample_spectrum = e.sample_spectrum ∧
      e'.is_lamp_on = e.is_lamp_on ∧ e'.scan_history = e.scan_history := by
  intro n
  induction n with
  | zero =>
    intro i e e' ms h
    simp only [scan_loop] at h
    obtain ⟨rfl, rfl⟩ := by simpa using h
    exact ⟨rfl, rfl, rfl, rfl⟩
  | succ n ih =>
    intro i e e' ms h
    simp only [scan_loop] at h
    by_cases hflag : (clear_stop stop i e).is_scanning = false
    · rw [if_pos hflag] at h
      simp only [Except.ok.injEq, Prod.mk.injEq] at h
      obtain ⟨rfl, rfl⟩ := h
      exact clear_stop_fields stop i e
    · rw [if_neg hflag] at h
      cases hm : measure_single pexp (noise i)
          { clear_stop stop i e with
            current_wavelength := start_wl + (i : ℚ) * WAVELENGTH_STEP } with
      | error msg => rw [hm] at h; simp at h
      | ok m =>
        rw [hm] at h
        cases hrec : scan_loop pexp noise stop start_wl n (i+1)
            { clear_stop stop i e with
              current_wavelength := start_wl + (i : ℚ) * WAVELENGTH_STEP } with
        | error p => rw [hrec] at h; simp at h
        | ok p =>
          obtain ⟨e3, rest⟩ := p
          rw [hrec] at h
          simp only [Except.ok.injEq, Prod.mk.injEq] at h
          obtain ⟨rfl, rfl⟩ := h
          have hfields := ih (i+1) _ _ _ hrec
          obtain ⟨hc1, hc2, hc3, hc4⟩ := clear_stop_fields stop i e
          simp only at hfields
          exact ⟨hfields.1.trans hc1, hfields.2.1.trans hc2,
                 hfields.2.2.1.trans hc3, hfields.2.2.2.trans hc4⟩

/-- Every measurement a successful scan loop collects has non-negative
intensity. -/
lemma scan_loop_ok_intensity (pexp : ℚ → ℚ) (noise : ℕ → Draws) (stop : ℕ → Bool)
    (start_wl : ℚ) :
    ∀ (n i : ℕ) (e e' : Engine) (ms : List Measurement),
      scan_loop pexp noise stop start_wl n i e = Except.ok (e', ms) →
      ∀ m ∈ ms, 0 ≤ m.intensity := by
  intro n
  induction n with
  | zero =>
    intro i e e' ms h
    simp only [scan_loop] at h
    obtain ⟨rfl, rfl⟩ := by simpa using h
    intro m hm
    simp at hm
  | succ n ih =>
    intro i e e' ms h
    simp only [scan_loop] at h
    by_cases hflag : (clear_stop stop i e).is_scanning = false
    · rw [if_pos hflag] at h
      simp only [Except.ok.injEq, Prod.mk.injEq] at h
      obtain ⟨rfl, rfl⟩ := h
      intro m hm
      simp at hm
    · rw [if_neg hflag] at h
      cases hm : measure_single pexp (noise i)
          { clear_stop stop i e with
            current_wavelength := start_wl + (i : ℚ) * WAVELENGTH_STEP } with
      | error msg => rw [hm] at h; simp at h
      | ok m0 =>
        rw [hm] at h
        cases hrec : scan_loop pexp noise stop start_wl n (i+1)
            { clear_stop stop i e with
              current_wavelength := start_wl + (i : ℚ) * WAVELENGTH_STEP } with
        | error p => rw [hrec] at h; simp at h
        | ok p =>
          obtain ⟨e3, rest⟩ := p
          rw [hrec] at h
          simp only [Except.ok.injEq, Prod.mk.injEq] at h
          obtain ⟨rfl, rfl⟩ := h
          intro m hmem
          rcases List.mem_cons.mp hmem with rfl | hmem
          · exact measure_single_intensity_nonneg _ _ _ _ hm
          · exact ih (i+1) _ _ _ hrec m hmem

/-- When nobody clears the stop flag and the lamp is on, the scan loop
completes: it returns exactly `n` measurements, the j-th taken at
`start + (i + j) * step`. -/
lemma scan_loop_no_stop (pexp : ℚ → ℚ) (noise : ℕ → Draws) (start_wl : ℚ) :
    ∀ (n i : ℕ) (e : Engine), e.is_lamp_on = true → e.is_scanning = true →
      ∃ e' ms,
        scan_loop pexp noise (fun _ => false) start_wl n i e = Except.ok (e', ms) ∧
        ms.length = n ∧
        (∀ (j : ℕ) (hj : j < ms.length),
          (ms.get ⟨j, hj⟩).wavelength = start_wl + ((i : ℚ) + (j : ℚ)) * WAVELENGTH_STEP) := by
  intro n
  induction n with
  | zero =>
    intro i e _ _
    refine ⟨e, [], ?_, rfl, ?_⟩
    · simp [scan_loop]
    · intro j hj
      simp at hj
  | succ n ih =>
    intro i e hlamp hscan
    have hclear : clear_stop (fun _ => false) i e = e := rfl
    have hflag : ¬ ((clear_stop (fun _ => false) i e).is_scanning = false) := by
      rw [hclear, hscan]; simp
    obtain ⟨e', ms', hrec, hlen, hwl⟩ := ih (i + 1)
      { clear_stop (fun _ => false) i e with
        current_wavelength := start_wl + (i : ℚ) * WAVELENGTH_STEP }
      (by rw [hclear]; exact hlamp) (by rw [hclear]; exact hscan)
    have hmeas : measure_single pexp (noise i)
        { clear_stop (fun _ => false) i e with
          current_wavelength := start_wl + (i : ℚ) * WAVELENGTH_STEP } =
      Except.ok (measured pexp (noise i)
        { clear_stop (fun _ => false) i e with
          current_wavelength := start_wl + (i : ℚ) * WAVELENGTH_STEP }) :=
      measure_single_of_lamp _ _ _ (by rw [hclear]; exact hlamp)
    refine ⟨e', measured pexp (noise i)
        { clear_stop (fun _ => false) i e with
          current_wavelength := start_wl + (i : ℚ) * WAVELENGTH_STEP } :: ms', ?_, ?_, ?_⟩
    · simp only [scan_loop]
      rw [if_neg hflag, hmeas, hrec]
    · simp [hlen]
    · intro j hj
      cases j with
      | zero =>
        show ({ clear_stop (fun _ => false) i e with
          current_wavelength := start_wl + (i : ℚ) * WAVELENGTH_STEP } : Engine).current_wavelength
            = start_wl + ((i : ℚ) + (0 : ℕ)) * WAVELENGTH_STEP
        push_cast
        ring_nf
      | succ j =>
        have hj' : j < ms'.length := by
          simpa using Nat.lt_of_succ_lt_succ hj
        have := hwl j hj'
        show (ms'.get ⟨j, hj'⟩).wavelength = _
        rw [this]
        push_cast
        ring_nf

/-- Every measurement in the data of a successful `scan_full_range` has
non-negative intensity. -/
lemma scan_full_range_ok_intensity (pexp : ℚ → ℚ) (noise : ℕ → Draws)
    (stop : ℕ → Bool) (sa ea : Option ℚ) (e e' : Engine) (rec : ScanRecord)
    (h : scan_full_range pexp noise stop sa ea e = Except.ok (e', rec)) :
    ∀ m ∈ rec.data, 0 ≤ m.intensity := by
  simp only [scan_full_range] at h
  split at h
  · simp at h
  · split at h
    · simp at h
    · split at h
      · simp at h
      · split at h
        · simp at h
        · cases hl : scan_loop pexp noise stop (sa.getD e.scan_range.1)
              ((((ea.getD e.scan_range.2) - (sa.getD e.scan_range.1)) / WAVELENGTH_STEP).floor.toNat + 1)
              0 { e with is_scanning := true } with
          | error p => rw [hl] at h; simp at h
          | ok p =>
            obtain ⟨e2, scan_data⟩ := p
            rw [hl] at h
            simp only [Except.ok.injEq, Prod.mk.injEq] at h
            obtain ⟨-, hrec⟩ := h
            intro m hm
            rw [← hrec] at hm
            exact scan_loop_ok_intensity pexp noise stop _ _ _ _ _ _ hl m hm

/-- Every sample a successful kinetic loop collects has non-negative
intensity. -/
lemma kinetic_loop_ok_intensity (pexp : ℚ → ℚ) (noise : ℕ → Draws) (stop : ℕ → Bool)
    (duration interval : ℚ) (e : Engine) :
    ∀ (fuel k : ℕ) (scanning : Bool) (samples : List KineticSample),
      kinetic_loop pexp noise stop duration interval e fuel k scanning = Except.ok samples →
      ∀ sm ∈ samples, 0 ≤ sm.intensity := by
  intro fuel
  induction fuel with
  | zero =>
    intro k scanning samples h
    simp only [kinetic_loop] at h
    obtain rfl := by simpa using h
    intro sm hsm
    simp at hsm
  | succ n ih =>
    intro k scanning samples h
    simp only [kinetic_loop] at h
    split at h
    · cases hm : measure_single pexp (noise k) e with
      | error msg => rw [hm] at h; simp at h
      | ok m =>
        rw [hm] at h
        cases hrec : kinetic_loop pexp noise stop duration interval e n (k+1)
            (scanning && !(stop k)) with
        | error msg => rw [hrec] at h; simp at h
        | ok rest =>
          rw [hrec] at h
          simp only [Except.ok.injEq] at h
          subst h
          intro sm hsm
          rcases List.mem_cons.mp hsm with rfl | hsm
          · exact measure_single_intensity_nonneg _ _ _ _ hm
          · exact ih (k+1) _ _ hrec sm hsm
    · obtain rfl := by simpa using h
      intro sm hsm
      simp at hsm

/-- The `measure_absorbance` loop is the filterMap of the per-entry
contribution over the sample spectrum. -/
lemma absorbance_loop_eq_filterMap (log10 : ℚ → ℚ) (ref : Spectrum) :
    ∀ l : List (PyKey × ℚ),
      absorbance_loop log10 ref l = l.filterMap (absorbance_entry log10 ref) := by
  intro l
  induction l with
  | nil => rfl
  | cons p rest ih =>
    obtain ⟨wl, si⟩ := p
    simp only [absorbance_loop, List.filterMap_cons]
    cases hr : dictGet ref wl with
    | none =>
      simp only [absorbance_entry, hr]
      exact ih
    | some r =>
      by_cases hpos : 0 < r
      · simp only [absorbance_entry, hr, if_pos hpos]
        simpa using ih
      · simp only [absorbance_entry, hr, if_neg hpos]
        exact ih

/-- Shared fact behind C1 and C7: `calibrate_reference` turns the lamp off and
immediately calls `measure_single`, whose lamp guard raises, so every call
raises the lamp-off error; the `finally` has restored `sample_present` by the
time the exception escapes. -/
lemma calibrate_reference_raises (pexp : ℚ → ℚ) (noise : ℕ → Draws)
    (stop : ℕ → Bool) (d : Draws) (e : Engine) :
    calibrate_reference pexp noise stop d e =
      Except.error ("Lamp is off. Cannot measure.", { e with is_lamp_on := false }) :=
  rfl

/-! ## Claim theorems -/

/-- C1 (code bug): in every engine state and for every exp/noise/stop oracle,
`calibrate_reference` raises the lamp-off not-ready error instead of recording
a dark background, scanning, setting `is_calibrated` and returning true: the
procedure sets `is_lamp_on = False` and then calls `measure_single`, whose
guard raises unconditionally when the lamp is off, so the dark-measurement
step can never succeed. -/
theorem c1_calibrate_reference_always_raises (pexp : ℚ → ℚ) (noise : ℕ → Draws)
    (stop : ℕ → Bool) (d : Draws) (e : Engine) :
    calibrate_reference pexp noise stop d e =
      Except.error ("Lamp is off. Cannot measure.", { e with is_lamp_on := false }) :=
  calibrate_reference_raises pexp noise stop d e

/-- C7: on every outcome of `calibrate_reference` (normal return or raise, in
any state and for any oracles), the engine that the caller observes has
`sample_present` equal to its pre-call value: the `finally` block restores it
on every exit path. -/
theorem c7_calibrate_restores_sample_present (pexp : ℚ → ℚ) (noise : ℕ → Draws)
    (stop : ℕ → Bool) (d : Draws) (e : Engine) :
    (outcome_engine (calibrate_reference pexp noise stop d e)).sample_present
      = e.sample_present := by
  rw [calibrate_reference_raises]
  rfl

/-- C8 (code bug): the detector self-check returns `false` in every engine
state and for every exp/noise oracle — never the claimed comparison verdict —
because its lamp-off `measure_single` call raises and the bare `except`
converts that to `false`; the engine is left with the lamp off. -/
theorem c8_test_detector_always_false (pexp : ℚ → ℚ) (d1 d2 : Draws) (e : Engine) :
    test_detector pexp d1 d2 e = (false, { e with is_lamp_on := false }) :=
  rfl

/-- C2 (counterexample): with `reference_spectrum = {450.0: 100}`, saving and
reloading does NOT leave `reference_spectrum` equal to its prior value —
`json.dump` turns the numeric key 450.0 into the string "450.0". -/
theorem c2_roundtrip_counterexample :
    (load_data (save_data eC2) eC2).reference_spectrum ≠ eC2.reference_spectrum := by
  decide

/-- C2 (amended): a save-then-load round trip preserves `calibration_data`
exactly, and gives back each of the three spectra with every numeric
wavelength key replaced by its string representation and all intensity values
unchanged; the spectra themselves are therefore preserved exactly only when
they contain no numeric keys (in particular when they are empty). -/
theorem c2_roundtrip_amended (e : Engine) :
    (load_data (save_data e) e).calibration_data = e.calibration_data ∧
    (load_data (save_data e) e).reference_spectrum = jsonSpectrum e.reference_spectrum ∧
    (load_data (save_data e) e).sample_spectrum = jsonSpectrum e.sample_spectrum ∧
    (load_data (save_data e) e).background_spectrum = jsonSpectrum e.background_spectrum ∧
    ((load_data (save_data e) e).reference_spectrum).map Prod.snd
      = e.reference_spectrum.map Prod.snd := by
  refine ⟨?_, ?_, ?_, ?_, ?_⟩
  · cases h : e.scan_history.getLast? <;> simp [load_data, save_data, h]
  · cases h : e.scan_history.getLast? <;> simp [load_data, save_data, h]
  · cases h : e.scan_history.getLast? <;> simp [load_data, save_data, h]
  · cases h : e.scan_history.getLast? <;> simp [load_data, save_data, h]
  · cases h : e.scan_history.getLast? <;>
      simp [load_data, save_data, h, jsonSpectrum, List.map_map, Function.comp]

/-- C5: `set_wavelength w` (and identically `goto_wavelength w`) raises the
range error and leaves the engine — in particular `current_wavelength` and
`target_wavelength` — untouched whenever `w` lies outside
`[MIN_WAVELENGTH, MAX_WAVELENGTH]`; for `w` inside the limits it sets
`target_wavelength = w` and `current_wavelength = w` and returns the new
value. -/
theorem c5_set_wavelength_range (w : ℚ) (e : Engine) :
    ((w < MIN_WAVELENGTH ∨ MAX_WAVELENGTH < w) →
      set_wavelength w e = Except.error (range_error_msg, e) ∧
      goto_wavelength w e = Except.error (range_error_msg, e)) ∧
    (MIN_WAVELENGTH ≤ w → w ≤ MAX_WAVELENGTH →
      set_wavelength w e =
        Except.ok ({ e with target_wavelength := w, current_wavelength := w }, w) ∧
      goto_wavelength w e = set_wavelength w e) := by
  constructor
  · intro hout
    have hcond : ¬ (MIN_WAVELENGTH ≤ w ∧ w ≤ MAX_WAVELENGTH) := by
      rcases hout with h | h
      · exact fun hc => absurd hc.1 (not_le.mpr h)
      · exact fun hc => absurd hc.2 (not_le.mpr h)
    constructor <;> simp [set_wavelength, goto_wavelength, hcond]
  · intro h1 h2
    constructor
    · simp [set_wavelength, h1, h2]
    · rfl

/-- C5 witness: a concrete out-of-range call (1200 nm) raising without state
change, and a concrete in-range call (500 nm) moving both wavelength fields. -/
theorem c5_witness :
    ((1200 : ℚ) < MIN_WAVELENGTH ∨ MAX_WAVELENGTH < (1200 : ℚ)) ∧
    set_wavelength 1200 initEngine = Except.error (range_error_msg, initEngine) ∧
    (MIN_WAVELENGTH ≤ (500 : ℚ) ∧ (500 : ℚ) ≤ MAX_WAVELENGTH) ∧
    set_wavelength 500 initEngine =
      Except.ok ({ initEngine with target_wavelength := 500, current_wavelength := 500 }, 500) :=
  ⟨Or.inr (by norm_num [MAX_WAVELENGTH]),
   ((c5_set_wavelength_range 1200 initEngine).1
      (Or.inr (by norm_num [MAX_WAVELENGTH]))).1,
   ⟨by norm_num [MIN_WAVELENGTH], by norm_num [MAX_WAVELENGTH]⟩,
   ((c5_set_wavelength_range 500 initEngine).2
      (by norm_num [MIN_WAVELENGTH]) (by norm_num [MAX_WAVELENGTH])).1⟩

/-- C4: on every successful `scan_full_range` run — completed or aborted via
the cooperative stop flag — performed with `sample_present` true, the final
`sample_spectrum` is exactly the wavelength-to-intensity dict built from that
run's data points (the prior `sample_spectrum` does not occur in the result at
all), and a run with `sample_present` false leaves `sample_spectrum`
unchanged. -/
theorem c4_scan_replaces_sample_spectrum (pexp : ℚ → ℚ) (noise : ℕ → Draws)
    (stop : ℕ → Bool) (sa ea : Option ℚ) (e e' : Engine) (rec : ScanRecord)
    (h : scan_full_range pexp noise stop sa ea e = Except.ok (e', rec)) :
    (e.sample_present = true →
      e'.sample_spectrum =
        dictOfList (rec.data.map (fun m => (PyKey.num m.wavelength, m.intensity)))) ∧
    (e.sample_present = false → e'.sample_spectrum = e.sample_spectrum) := by
  simp only [scan_full_range] at h
  split at h
  · simp at h
  · split at h
    · simp at h
    · split at h
      · simp at h
      · split at h
        · simp at h
        · cases hl : scan_loop pexp noise stop (sa.getD e.scan_range.1)
              ((((ea.getD e.scan_range.2) - (sa.getD e.scan_range.1)) / WAVELENGTH_STEP).floor.toNat + 1)
              0 { e with is_scanning := true } with
          | error p => rw [hl] at h; simp at h
          | ok p =>
            obtain ⟨e2, scan_data⟩ := p
            rw [hl] at h
            simp only [Except.ok.injEq, Prod.mk.injEq] at h
            obtain ⟨h1, rfl⟩ := h
            have hsp : e2.sample_present = e.sample_present := by
              have := (scan_loop_ok_fields pexp noise stop _ _ _ _ _ _ hl).1
              simpa using this
            have hss : e2.sample_spectrum = e.sample_spectrum := by
              have := (scan_loop_ok_fields pexp noise stop _ _ _ _ _ _ hl).2.1
              simpa using this
            by_cases hc : e2.sample_present = true
            · rw [if_pos hc] at h1
              subst h1
              constructor
              · intro _
                rfl
              · intro hpf
                rw [hsp] at hc
                rw [hc] at hpf
                cases hpf
            · rw [if_neg hc] at h1
              subst h1
              constructor
              · intro hpt
                rw [← hsp] at hpt
                exact absurd hpt hc
              · intro _
                exact hss

/-- C6: an uninterrupted `scan_full_range` with the lamp on and valid bounds
succeeds and produces exactly `floor((end - start) / step) + 1` measurement
points, point j taken at wavelength `start + j * step`, so the wavelengths are
strictly increasing in the point index. -/
theorem c6_scan_point_count (pexp : ℚ → ℚ) (noise : ℕ → Draws) (s en : ℚ)
    (e : Engine) (hlamp : e.is_lamp_on = true)
    (h1 : MIN_WAVELENGTH ≤ s) (h2 : s ≤ MAX_WAVELENGTH)
    (h3 : MIN_WAVELENGTH ≤ en) (h4 : en ≤ MAX_WAVELENGTH) (h5 : s < en) :
    exceptOk (scan_full_range pexp noise (fun _ => false) (some s) (some en) e) = true ∧
    (scan_data_of (scan_full_range pexp noise (fun _ => false) (some s) (some en) e)).length
      = ((en - s) / WAVELENGTH_STEP).floor.toNat + 1 ∧
    (∀ j : ℕ,
      j < (scan_data_of (scan_full_range pexp noise (fun _ => false) (some s) (some en) e)).length →
      ((scan_data_of (scan_full_range pexp noise (fun _ => false) (some s) (some en) e)).getD
          j default_measurement).wavelength
        = s + (j : ℚ) * WAVELENGTH_STEP) ∧
    (∀ j k : ℕ, j < k →
      k < (scan_data_of (scan_full_range pexp noise (fun _ => false) (some s) (some en) e)).length →
      ((scan_data_of (scan_full_range pexp noise (fun _ => false) (some s) (some en) e)).getD
          j default_measurement).wavelength
        < ((scan_data_of (scan_full_range pexp noise (fun _ => false) (some s) (some en) e)).getD
            k default_measurement).wavelength) := by
  obtain ⟨e', ms, hloop, hlen, hwl⟩ := scan_loop_no_stop pexp noise s
    (((en - s) / WAVELENGTH_STEP).floor.toNat + 1) 0 { e with is_scanning := true }
    (by simpa using hlamp) rfl
  obtain ⟨e5, hR⟩ : ∃ e5, scan_full_range pexp noise (fun _ => false) (some s) (some en) e =
      Except.ok (e5,
        { start_wavelength := s, end_wavelength := en, step_size := WAVELENGTH_STEP,
          data := ms, sample_present := e'.sample_present }) := by
    simp only [scan_full_range, Option.getD]
    rw [if_neg (by simp [hlamp]), if_neg (not_not_intro ⟨h1, h2⟩),
        if_neg (not_not_intro ⟨h3, h4⟩), if_neg (not_le.mpr h5), hloop]
    exact ⟨_, rfl⟩
  have hdata : scan_data_of (scan_full_range pexp noise (fun _ => false) (some s) (some en) e)
      = ms := by
    rw [hR]; rfl
  have hwl' : ∀ j : ℕ, j < ms.length →
      (ms.getD j default_measurement).wavelength = s + (j : ℚ) * WAVELENGTH_STEP := by
    intro j hj
    have h0 := hwl j hj
    rw [List.getD_eq_getElem ms default_measurement hj]
    rw [show s + ((0 : ℕ) + (j : ℚ)) * WAVELENGTH_STEP
      = s + (j : ℚ) * WAVELENGTH_STEP by push_cast; ring] at h0
    simpa using h0
  refine ⟨?_, ?_, ?_, ?_⟩
  · rw [hR]; rfl
  · rw [hdata]; exact hlen
  · intro j hj
    rw [hdata] at hj ⊢
    exact hwl' j hj
  · intro j k hjk hk
    rw [hdata] at hk ⊢
    rw [hwl' j (hjk.trans hk), hwl' k hk]
    have hq : (j : ℚ) < (k : ℚ) := by exact_mod_cast hjk
    simp only [WAVELENGTH_STEP]
    linarith

/-- C10: whenever the lamp is off, `kinetic_scan` with positive duration (and
a wall clock that admits at least one loop iteration) raises the not-ready
error from its first `measure_single` call, and the engine after the raise has
`kinetic_data` unchanged and `is_scanning` still true — the flag set on entry
is never reset on the error path. -/
theorem c10_kinetic_scan_lamp_off (pexp : ℚ → ℚ) (noise : ℕ → Draws)
    (stop : ℕ → Bool) (duration interval : ℚ) (fuel : ℕ) (e : Engine)
    (hlamp : e.is_lamp_on = false) (hdur : 0 < duration) (hfuel : 1 ≤ fuel) :
    kinetic_scan pexp noise stop duration interval fuel e =
      Except.error ("Lamp is off. Cannot measure.", { e with is_scanning := true }) ∧
    (outcome_engine (kinetic_scan pexp noise stop duration interval fuel e)).kinetic_data
      = e.kinetic_data ∧
    (outcome_engine (kinetic_scan pexp noise stop duration interval fuel e)).is_scanning
      = true := by
  obtain ⟨n, rfl⟩ : ∃ n, fuel = n + 1 :=
    ⟨fuel - 1, (Nat.succ_pred_eq_of_pos hfuel).symm⟩
  have hrun : kinetic_scan pexp noise stop duration interval (n + 1) e =
      Except.error ("Lamp is off. Cannot measure.", { e with is_scanning := true }) := by
    simp only [kinetic_scan, kinetic_loop]
    simp [measure_single, hlamp, hdur]
  refine ⟨hrun, ?_, ?_⟩
  · rw [hrun]; rfl
  · rw [hrun]; rfl

/-- C10 witness: the freshly constructed engine (lamp off), a 60-second run at
1-second intervals, wall clock admitting 3 iterations. -/
theorem c10_witness :
    initEngine.is_lamp_on = false ∧ (0 : ℚ) < 60 ∧ 1 ≤ 3 ∧
    kinetic_scan exp0 noise0 noStop 60 1 3 initEngine =
      Except.error ("Lamp is off. Cannot measure.", { initEngine with is_scanning := true }) :=
  ⟨rfl, by norm_num, by norm_num,
   (c10_kinetic_scan_lamp_off exp0 noise0 noStop 60 1 3 initEngine rfl
      (by norm_num) (by norm_num)).1⟩

unseal Rat.add Rat.mul Rat.sub Rat.inv in
/-- C3 (counterexample): with reference `{500: 0}` and sample `{500: 10}` the
wavelength 500 is present in both spectra, yet `measure_absorbance` returns no
result at all for it — the code silently skips shared keys whose reference
intensity is not strictly positive, contradicting "one result for every
wavelength key present in both spectra". -/
theorem c3_zero_reference_counterexample :
    measure_absorbance log10W eC3bad = Except.ok [] ∧
    dictGet eC3bad.reference_spectrum (PyKey.num 500) = some 0 ∧
    dictGet eC3bad.sample_spectrum (PyKey.num 500) = some 10 := by
  decide

/-- C3 (amended): when both spectra are non-empty, `measure_absorbance`
returns one result for every wavelength key of the sample spectrum that is
also present in the reference spectrum WITH strictly positive reference
intensity — transmittance `sample/reference`, absorbance `-log10` of it when
positive else the infinity sentinel — and silently skips keys present in only
one spectrum or whose reference intensity is not positive; on the documented
example (reference `{500: 100}`, sample `{500: 10, 600: 5}`) it returns
exactly one result, for 500, with absorbance 1. -/
theorem c3_measure_absorbance_amended (log10 : ℚ → ℚ) (e : Engine) :
    (e.reference_spectrum ≠ [] → e.sample_spectrum ≠ [] →
      measure_absorbance log10 e =
        Except.ok (e.sample_spectrum.filterMap (absorbance_entry log10 e.reference_spectrum))) ∧
    (log10 (1/10) = -1 →
      measure_absorbance log10 eC3 =
        Except.ok [{ wavelength := PyKey.num 500, absorbance := AbsVal.finite 1,
                     transmittance := 10, reference_intensity := 100, sample_intensity := 10 }]) := by
  constructor
  · intro h1 h2
    have he1 : e.reference_spectrum.isEmpty = false := by
      cases hx : e.reference_spectrum
      · exact absurd hx h1
      · rfl
    have he2 : e.sample_spectrum.isEmpty = false := by
      cases hx : e.sample_spectrum
      · exact absurd hx h2
      · rfl
    rw [measure_absorbance, he1, he2]
    simp [absorbance_loop_eq_filterMap]
  · intro hlog
    rw [measure_absorbance]
    show Except.ok (absorbance_loop log10 eC3.reference_spectrum eC3.sample_spectrum) = _
    rw [show eC3.sample_spectrum = [(PyKey.num 500, 10), (PyKey.num 600, 5)] from rfl]
    rw [show eC3.reference_spectrum = [(PyKey.num 500, 100)] from rfl]
    simp only [absorbance_loop, dictGet]
    norm_num [hlog]

unseal Rat.add Rat.mul Rat.sub Rat.inv in
/-- C3 witness: the documented example run, instantiating both parts of the
amended theorem at the concrete engine `eC3` and a log10 stand-in that is
correct at 1/10. -/
theorem c3_witness :
    eC3.reference_spectrum ≠ [] ∧ eC3.sample_spectrum ≠ [] ∧ log10W (1/10) = -1 ∧
    measure_absorbance log10W eC3 =
      Except.ok (eC3.sample_spectrum.filterMap (absorbance_entry log10W eC3.reference_spectrum)) ∧
    measure_absorbance log10W eC3 =
      Except.ok [{ wavelength := PyKey.num 500, absorbance := AbsVal.finite 1,
                   transmittance := 10, reference_intensity := 100, sample_intensity := 10 }] :=
  ⟨by decide, by decide, by decide,
   (c3_measure_absorbance_amended log10W eC3).1 (by decide) (by decide),
   (c3_measure_absorbance_amended log10W eC3).2 (by decide)⟩

unseal Rat.add Rat.mul Rat.sub Rat.inv in
/-- C4 witness: a concrete completed 2-point scan with a sample present whose
result spectrum is exactly the scan's own dict (the stale entry `{1: 1}` is
gone), and the same scan with no sample present leaving `sample_spectrum`
untouched. -/
theorem c4_witness :
    eScanTrue.sample_present = true ∧
    scan_full_range exp0 noise0 noStop (some 190) (some (1901/10)) eScanTrue
      = Except.ok (scanWT_pair.1, scanWT_pair.2) ∧
    scanWT_pair.1.sample_spectrum =
      dictOfList (scanWT_pair.2.data.map (fun m => (PyKey.num m.wavelength, m.intensity))) ∧
    eScanFalse.sample_present = false ∧
    scan_full_range exp0 noise0 noStop (some 190) (some (1901/10)) eScanFalse
      = Except.ok (scanWF_pair.1, scanWF_pair.2) ∧
    scanWF_pair.1.sample_spectrum = eScanFalse.sample_spectrum :=
  ⟨rfl, by decide,
   (c4_scan_replaces_sample_spectrum exp0 noise0 noStop (some 190) (some (1901/10))
      eScanTrue scanWT_pair.1 scanWT_pair.2 (by decide)).1 rfl,
   rfl, by decide,
   (c4_scan_replaces_sample_spectrum exp0 noise0 noStop (some 190) (some (1901/10))
      eScanFalse scanWF_pair.1 scanWF_pair.2 (by decide)).2 rfl⟩

unseal Rat.add Rat.mul Rat.sub Rat.inv in
/-- C6 witness: the documented run — a scan from 400 to 410 with the fixed
0.1 step, lamp on, which yields exactly 101 points. -/
theorem c6_witness :
    eOn.is_lamp_on = true ∧
    MIN_WAVELENGTH ≤ (400 : ℚ) ∧ (400 : ℚ) ≤ MAX_WAVELENGTH ∧
    MIN_WAVELENGTH ≤ (410 : ℚ) ∧ (410 : ℚ) ≤ MAX_WAVELENGTH ∧ (400 : ℚ) < 410 ∧
    (scan_data_of (scan_full_range exp0 noise0 (fun _ => false)
        (some 400) (some 410) eOn)).length = 101 := by
  refine ⟨rfl, by norm_num [MIN_WAVELENGTH], by norm_num [MAX_WAVELENGTH],
    by norm_num [MIN_WAVELENGTH], by norm_num [MAX_WAVELENGTH], by norm_num, ?_⟩
  have h := (c6_scan_point_count exp0 noise0 400 410 eOn rfl
    (by norm_num [MIN_WAVELENGTH]) (by norm_num [MAX_WAVELENGTH])
    (by norm_num [MIN_WAVELENGTH]) (by norm_num [MAX_WAVELENGTH]) (by norm_num)).2.1
  rw [h]
  decide

/-- C9: every intensity the engine reports — a `measure_single` result, each
point of a successful `scan_full_range`, each sample of a successful
`kinetic_scan` — is non-negative, in every engine state and for every outcome
of the noise draws. -/
theorem c9_intensity_nonneg :
    (∀ (pexp : ℚ → ℚ) (d : Draws) (e : Engine) (m : Measurement),
      measure_single pexp d e = Except.ok m → 0 ≤ m.intensity) ∧
    (∀ (pexp : ℚ → ℚ) (noise : ℕ → Draws) (stop : ℕ → Bool) (sa ea : Option ℚ)
      (e e' : Engine) (rec : ScanRecord),
      scan_full_range pexp noise stop sa ea e = Except.ok (e', rec) →
      ∀ m ∈ rec.data, 0 ≤ m.intensity) ∧
    (∀ (pexp : ℚ → ℚ) (noise : ℕ → Draws) (stop : ℕ → Bool) (duration interval : ℚ)
      (fuel : ℕ) (e e' : Engine) (samples : List KineticSample),
      kinetic_scan pexp noise stop duration interval fuel e = Except.ok (e', samples) →
      ∀ sm ∈ samples, 0 ≤ sm.intensity) := by
  refine ⟨measure_single_intensity_nonneg, scan_full_range_ok_intensity, ?_⟩
  intro pexp noise stop duration interval fuel e e' samples h sm hsm
  simp only [kinetic_scan] at h
  cases hl : kinetic_loop pexp noise stop duration interval
      { e with is_scanning := true } fuel 0 true with
  | error msg => rw [hl] at h; simp at h
  | ok samples0 =>
    rw [hl] at h
    simp only [Except.ok.injEq, Prod.mk.injEq] at h
    obtain ⟨-, rfl⟩ := h
    exact kinetic_loop_ok_intensity _ _ _ _ _ _ _ _ _ _ hl sm hsm

unseal Rat.add Rat.mul Rat.sub Rat.inv in
/-- C9 witness: concrete successful runs of all three reporting paths — one
measurement, one 2-point scan, one 2-sample kinetic run — with a non-negative
intensity extracted from each via the theorem. -/
theorem c9_witness :
    measure_single exp0 noiseD eOn = Except.ok mW ∧ 0 ≤ mW.intensity ∧
    scan_full_range exp0 noise0 noStop (some 190) (some (1901/10)) eOn
      = Except.ok (scanW9_pair.1, scanW9_pair.2) ∧
    mW9 ∈ scanW9_pair.2.data ∧ 0 ≤ mW9.intensity ∧
    kinetic_scan exp0 noise0 noStop 2 1 3 eOn = Except.ok (kinW_pair.1, kinW_pair.2) ∧
    sW ∈ kinW_pair.2 ∧ 0 ≤ sW.intensity :=
  ⟨by decide,
   c9_intensity_nonneg.1 exp0 noiseD eOn mW (by decide),
   by decide, by decide,
   c9_intensity_nonneg.2.1 exp0 noise0 noStop (some 190) (some (1901/10)) eOn
     scanW9_pair.1 scanW9_pair.2 (by decide) mW9 (by decide),
   by decide, by decide,
   c9_intensity_nonneg.2.2 exp0 noise0 noStop 2 1 3 eOn kinW_pair.1 kinW_pair.2
     (by decide) sW (by decide)⟩

end SpectOS
